import Mathlib

/-!
# Verification of `openshift_adm_migrate_template_instances`

Shallow embedding of the core logic of
`plugins/modules/openshift_adm_migrate_template_instances.py`:
the static `transforms` table, the per-instance reference rewriting loop of
`perform_migrations`, the status-subresource patching it interleaves, and the
list/error-handling structure of `execute_module`.

Modelling conventions:
* Python dicts become structures; string values stay `String`.
* `status.objects` may be missing (`ti['status'].get('objects')` returns
  `None`), so it is an `Option (List StatusObject)`; the Python truthiness
  test `if objects:` also skips the empty list.
* The patch call `resource.status.patch(templateinstance)` is modelled by a
  `server : TemplateInstance → TemplateInstance` parameter giving the
  server-returned body of a successful patch, and the sequence of bodies sent
  to the server is returned as an explicit trace so that claims about which
  patch calls happen can be stated.
* `results['result']` starts as the Python empty list `[]` and is overwritten
  with a dict by each patch, so its value space is the sum type `ResultField`.
-/

set_option autoImplicit false

namespace OkdMigrate

/-- An entry of `status.objects[i]['ref']`: kind, apiVersion, name, namespace,
uid, exactly the fields shown in the module's data model. -/
structure ObjectReference where
  kind : String
  apiVersion : String
  name : String
  «namespace» : String
  uid : String
  deriving Repr, DecidableEq

/-- An entry of `status.objects`: a wrapper dict holding a `ref`. -/
structure StatusObject where
  ref : ObjectReference
  deriving Repr, DecidableEq

/-- The `status` field of a TemplateInstance: the optional `objects` list the
module rewrites, plus the remaining status payload (conditions, …) that the
module never touches, kept opaque. -/
structure TIStatus where
  objects : Option (List StatusObject)
  rest : String
  deriving Repr, DecidableEq

/-- A TemplateInstance as the module sees it: opaque `metadata` and `spec`
payloads and a `status`. Only `status.objects[i].ref.apiVersion` is ever
written by the module. -/
structure TemplateInstance where
  metadata : String
  spec : String
  status : TIStatus
  deriving Repr, DecidableEq

/-- The module-level `transforms` dict, in source order. -/
def transforms : List (String × String) :=
  [("Build", "build.openshift.io/v1.Build"),
   ("BuildConfig", "build.openshift.io/v1.BuildConfig"),
   ("DeploymentConfig", "apps.openshift.io/v1.DeploymentConfig"),
   ("Route", "route.openshift.io/v1.Route")]

/-- Dict lookup `transforms[object_type]` guarded by
`object_type in transforms.keys()`. -/
def transformsLookup (k : String) : Option String :=
  (transforms.find? (fun p => p.1 == k)).map (fun p => p.2)

/-- Replace the `apiVersion` of a status object's `ref`
(`ti['status']['objects'][i]['ref']['apiVersion'] = transforms[object_type]`). -/
def setRefApiVersion (o : StatusObject) (v : String) : StatusObject :=
  { o with ref := { o.ref with apiVersion := v } }

/-- Replace an instance's `status.objects` list, all other fields unchanged. -/
def withObjects (ti : TemplateInstance) (objs : List StatusObject) :
    TemplateInstance :=
  { ti with status := { ti.status with objects := some objs } }

/-- The condition of the rewrite branch:
`object_type in transforms.keys() and obj['ref']['apiVersion'] != transforms[object_type]`. -/
def isStale (o : StatusObject) : Bool :=
  match transformsLookup o.ref.kind with
  | some v => o.ref.apiVersion != v
  | none => false

/-- What one loop iteration leaves at position `i`: the rewritten reference if
the entry is stale, the entry itself otherwise. -/
def rewriteRef (o : StatusObject) : StatusObject :=
  match transformsLookup o.ref.kind with
  | some v => if o.ref.apiVersion = v then o else setRefApiVersion o v
  | none => o

/-- The inner `for i, obj in enumerate(objects)` loop of `perform_migrations`
on one instance. `done` is the already-visited prefix with its rewrites
applied (the list is mutated in place, so later patch bodies see them),
`todo` the remaining suffix. Returns the final objects list, the trace of
instance bodies sent to `resource.status.patch` (empty in check mode), and
whether `results['changed'] = True` was executed for this instance. -/
def migrateRefs (checkMode : Bool) (ti : TemplateInstance)
    (done todo : List StatusObject) :
    List StatusObject × List TemplateInstance × Bool :=
  match todo with
  | [] => (done, [], false)
  | obj :: rest =>
    if isStale obj then
      let obj' := rewriteRef obj
      let body := withObjects ti (done ++ obj' :: rest)
      let r := migrateRefs checkMode ti (done ++ [obj']) rest
      (r.1, (if checkMode then r.2.1 else body :: r.2.1), true)
    else
      migrateRefs checkMode ti (done ++ [obj]) rest

/-- One iteration of the outer `for ti in templateinstances.get('items')`
loop: skip when `status.objects` is absent or empty (`if objects:`), else run
the inner loop. Returns the instance as left in memory, the patch-body trace,
and the per-instance mutated flag. -/
def processInstance (checkMode : Bool) (ti : TemplateInstance) :
    TemplateInstance × List TemplateInstance × Bool :=
  match ti.status.objects with
  | none => (ti, [], false)
  | some objs =>
    if objs = [] then (ti, [], false)
    else
      let r := migrateRefs checkMode ti [] objs
      (withObjects ti r.1, r.2.1, r.2.2)

/-- The value of `results['result']`: the initial Python `[]`, or the dict a
patch call stored. -/
inductive ResultField where
  | emptyList : ResultField
  | body (ti : TemplateInstance) : ResultField
  deriving Repr, DecidableEq

/-- The `results` dict returned by `perform_migrations`. -/
structure RunResults where
  changed : Bool
  result : ResultField
  deriving Repr, DecidableEq

/-- `perform_migrations(resource, templateinstances)`: fold the per-instance
processing over the listed items. `server` gives the body returned by each
successful `resource.status.patch` call; each patch overwrites
`results['result']`, so after an instance the field holds the server's answer
to that instance's last patch (or its previous value if the instance issued
none). The second component is the full trace of patch bodies sent, in order. -/
def perform_migrations (checkMode : Bool)
    (server : TemplateInstance → TemplateInstance)
    (items : List TemplateInstance) :
    RunResults × List TemplateInstance :=
  items.foldl
    (fun acc ti =>
      let r := processInstance checkMode ti
      let result' :=
        match r.2.1.getLast? with
        | some b => ResultField.body (server b)
        | none => acc.1.result
      ({ changed := acc.1.changed || r.2.2, result := result' },
        acc.2 ++ r.2.1))
    ({ changed := false, result := ResultField.emptyList }, [])

/-- Outcome of the single `resource.get(...)` / `resource.get(namespace=...)`
list call a run makes. A `kubernetes.dynamic.exceptions.DynamicApiError`
carries an HTTP status and reason; any other exception only a message. -/
inductive ListResult where
  | ok (tis : List TemplateInstance) : ListResult
  | dynamicApiError (status : Nat) (reason : String) (body : String) : ListResult
  | otherException (msg : String) : ListResult
  deriving Repr, DecidableEq

/-- How a run terminates: `exit_json(**results)`, a structured `fail_json`
(whose `status`/`reason` kwargs are the exception's when it was a
`DynamicApiError`, and the empty-string placeholders, modelled `none`,
otherwise), or a Python exception that propagates out of `execute_module`
uncaught. -/
inductive ModuleTermination where
  | exited (results : RunResults) : ModuleTermination
  | failedRetrieval (msg : String) (status : Option Nat) (reason : Option String) :
      ModuleTermination
  | uncaught (msg : String) : ModuleTermination
  deriving Repr, DecidableEq

/-- `execute_module` after the resource type has been resolved: one list call
(its outcome passed in as `listRes`), then `perform_migrations`. Only the
namespace-scoped branch wraps the list call in `try/except`; in the
all-namespaces branch an exception from `resource.get()` propagates uncaught. -/
def execute_module (ns : Option String) (listRes : ListResult)
    (checkMode : Bool) (server : TemplateInstance → TemplateInstance) :
    ModuleTermination :=
  match ns with
  | some n =>
    match listRes with
    | ListResult.ok tis =>
        ModuleTermination.exited (perform_migrations checkMode server tis).1
    | ListResult.dynamicApiError st r b =>
        ModuleTermination.failedRetrieval
          ("Failed to retrieve TemplateInstances in namespace " ++ n ++ ": " ++ b)
          (some st) (some r)
    | ListResult.otherException m =>
        ModuleTermination.failedRetrieval
          ("Failed to retrieve TemplateInstances in namespace " ++ n ++ ": " ++ m)
          none none
  | none =>
    match listRes with
    | ListResult.ok tis =>
        ModuleTermination.exited (perform_migrations checkMode server tis).1
    | ListResult.dynamicApiError _ _ b => ModuleTermination.uncaught b
    | ListResult.otherException m => ModuleTermination.uncaught m

/-! ## Characterizations of the loops -/

/-- The patch bodies a non-check-mode traversal of one instance's objects
sends: one per stale entry, each carrying the rewrites applied so far
(visited prefix rewritten, current entry rewritten, suffix untouched). -/
def patchTrace (ti : TemplateInstance) (done todo : List StatusObject) :
    List TemplateInstance :=
  match todo with
  | [] => []
  | obj :: rest =>
    if isStale obj then
      withObjects ti (done ++ rewriteRef obj :: rest) ::
        patchTrace ti (done ++ [rewriteRef obj]) rest
    else
      patchTrace ti (done ++ [obj]) rest

/-! ## Concrete fixtures

Small concrete instances used to evaluate the embedding: two references whose
kinds are in the table but whose apiVersion is stale, one reference of a kind
the table does not know, and their migrated forms. -/

def routeStaleRef : StatusObject := ⟨⟨"Route", "v1", "route", "test", "u1"⟩⟩

def buildStaleRef : StatusObject := ⟨⟨"Build", "v1", "build", "test", "u2"⟩⟩

def secretRef : StatusObject := ⟨⟨"Secret", "v1", "secret", "test", "u3"⟩⟩

def routeMigratedRef : StatusObject :=
  ⟨⟨"Route", "route.openshift.io/v1.Route", "route", "test", "u1"⟩⟩

def tiTwoStale : TemplateInstance :=
  ⟨"meta-two", "spec-two", ⟨some [routeStaleRef, buildStaleRef], "conditions"⟩⟩

def tiOneStale : TemplateInstance :=
  ⟨"meta-one", "spec-one", ⟨some [secretRef, routeStaleRef], "conditions"⟩⟩

def tiOneStaleMigrated : TemplateInstance :=
  ⟨"meta-one", "spec-one", ⟨some [secretRef, routeMigratedRef], "conditions"⟩⟩

def tiNoObjects : TemplateInstance := ⟨"meta-none", "spec-none", ⟨none, "conditions"⟩⟩

/-! ## Supporting lemmas -/

theorem rewriteRef_of_not_stale {o : StatusObject} (h : isStale o = false) :
    rewriteRef o = o := by
  cases hl : transformsLookup o.ref.kind with
  | none => simp [rewriteRef, hl]
  | some v =>
    simp only [isStale, hl] at h
    have hv : o.ref.apiVersion = v := bne_eq_false_iff_eq.mp h
    simp [rewriteRef, hl, hv]

theorem isStale_rewriteRef (o : StatusObject) :
    isStale (rewriteRef o) = false := by
  cases hl : transformsLookup o.ref.kind with
  | none => simp [isStale, rewriteRef, hl]
  | some v =>
    by_cases hv : o.ref.apiVersion = v
    · simp [isStale, rewriteRef, hl, hv]
    · simp [isStale, rewriteRef, hl, hv, setRefApiVersion]

theorem rewriteRef_idem (o : StatusObject) :
    rewriteRef (rewriteRef o) = rewriteRef o :=
  rewriteRef_of_not_stale (isStale_rewriteRef o)

/-- `migrateRefs` computed in closed form: the final list maps `rewriteRef`
over the suffix, the patch trace is `patchTrace` (none in check mode), and
the mutated flag is `any isStale`. -/
theorem migrateRefs_eq (cm : Bool) (ti : TemplateInstance) :
    ∀ (todo done : List StatusObject),
      migrateRefs cm ti done todo =
        (done ++ todo.map rewriteRef,
         (if cm then [] else patchTrace ti done todo),
         todo.any isStale) := by
  intro todo
  induction todo with
  | nil => intro done; simp [migrateRefs, patchTrace]
  | cons obj rest ih =>
    intro done
    by_cases h : isStale obj = true
    · rw [migrateRefs, patchTrace]
      simp only [h, if_true, ih, List.map_cons, List.any_cons, Bool.true_or,
        List.append_assoc, List.singleton_append]
      cases cm <;> simp
    · rw [migrateRefs, patchTrace]
      simp only [Bool.not_eq_true] at h
      simp only [h, Bool.false_eq_true, if_false, ih, List.map_cons,
        rewriteRef_of_not_stale h, List.any_cons, Bool.false_or,
        List.append_assoc, List.singleton_append]

theorem processInstance_none (cm : Bool) (ti : TemplateInstance)
    (h : ti.status.objects = none) : processInstance cm ti = (ti, [], false) := by
  unfold processInstance
  rw [h]

theorem processInstance_empty (cm : Bool) (ti : TemplateInstance)
    (h : ti.status.objects = some []) : processInstance cm ti = (ti, [], false) := by
  unfold processInstance
  rw [h]
  simp

theorem processInstance_some (cm : Bool) (ti : TemplateInstance)
    (objs : List StatusObject) (h : ti.status.objects = some objs)
    (hne : objs ≠ []) :
    processInstance cm ti =
      (withObjects ti (objs.map rewriteRef),
       (if cm then [] else patchTrace ti [] objs),
       objs.any isStale) := by
  unfold processInstance
  rw [h]
  simp [hne, migrateRefs_eq]

theorem map_rewriteRef_of_no_stale {l : List StatusObject}
    (h : l.any isStale = false) : l.map rewriteRef = l := by
  induction l with
  | nil => rfl
  | cons o rest ih =>
    simp only [List.any_cons, Bool.or_eq_false_iff] at h
    simp [rewriteRef_of_not_stale h.1, ih h.2]

theorem patchTrace_length (ti : TemplateInstance) :
    ∀ (todo done : List StatusObject),
      (patchTrace ti done todo).length = todo.countP isStale := by
  intro todo
  induction todo with
  | nil => intro done; simp [patchTrace]
  | cons obj rest ih =>
    intro done
    rw [patchTrace, List.countP_cons]
    by_cases h : isStale obj = true
    · simp [h, ih]
    · simp only [Bool.not_eq_true] at h
      simp [h, ih]

theorem patchTrace_eq_nil (ti : TemplateInstance) :
    ∀ (todo done : List StatusObject), todo.any isStale = false →
      patchTrace ti done todo = [] := by
  intro todo
  induction todo with
  | nil => intro done _; rfl
  | cons obj rest ih =>
    intro done h
    simp only [List.any_cons, Bool.or_eq_false_iff] at h
    rw [patchTrace]
    simp [h.1, ih _ h.2]

/-- The last patch body sent for an instance carries all of that instance's
rewrites. -/
theorem patchTrace_getLast (ti : TemplateInstance) :
    ∀ (todo done : List StatusObject), todo.any isStale = true →
      (patchTrace ti done todo).getLast? =
        some (withObjects ti (done ++ todo.map rewriteRef)) := by
  intro todo
  induction todo with
  | nil => intro done h; simp at h
  | cons obj rest ih =>
    intro done h
    rw [patchTrace]
    by_cases hs : isStale obj = true
    · simp only [hs, if_true]
      by_cases hr : rest.any isStale = true
      · have := ih (done ++ [rewriteRef obj]) hr
        cases htr : patchTrace ti (done ++ [rewriteRef obj]) rest with
        | nil => rw [htr] at this; simp at this
        | cons x xs =>
          rw [htr] at this
          simp only [List.getLast?_cons_cons, this]
          simp
      · simp only [Bool.not_eq_true] at hr
        rw [patchTrace_eq_nil ti rest _ hr]
        simp [map_rewriteRef_of_no_stale hr]
    · simp only [Bool.not_eq_true] at hs
      simp only [List.any_cons, hs, Bool.false_or] at h
      simp only [hs, Bool.false_eq_true, if_false]
      rw [ih (done ++ [obj]) h]
      simp [rewriteRef_of_not_stale hs]

/-- The per-instance patch bodies and mutated flags, concatenated over the
run: closed form of the fold inside `perform_migrations`, for any starting
accumulator. -/
theorem perform_migrations_aux (cm : Bool)
    (server : TemplateInstance → TemplateInstance) :
    ∀ (items : List TemplateInstance) (acc : RunResults × List TemplateInstance),
      items.foldl
        (fun acc ti =>
          let r := processInstance cm ti
          let result' :=
            match r.2.1.getLast? with
            | some b => ResultField.body (server b)
            | none => acc.1.result
          ({ changed := acc.1.changed || r.2.2, result := result' },
            acc.2 ++ r.2.1))
        acc =
        ({ changed :=
             acc.1.changed || items.any (fun ti => (processInstance cm ti).2.2),
           result :=
             match (items.flatMap fun ti => (processInstance cm ti).2.1).getLast? with
             | some b => ResultField.body (server b)
             | none => acc.1.result },
         acc.2 ++ (items.flatMap fun ti => (processInstance cm ti).2.1)) := by
  intro items
  induction items with
  | nil => intro acc; simp
  | cons ti rest ih =>
    intro acc
    rw [List.foldl_cons, ih]
    simp only [List.any_cons, List.flatMap_cons, List.getLast?_append,
      List.append_assoc]
    cases hr : (rest.flatMap fun ti => (processInstance cm ti).2.1).getLast? with
    | some b => simp [Bool.or_assoc]
    | none => simp [Bool.or_assoc, Option.none_or]

/-- Closed form of `perform_migrations`. -/
theorem perform_migrations_eq (cm : Bool)
    (server : TemplateInstance → TemplateInstance)
    (items : List TemplateInstance) :
    perform_migrations cm server items =
      ({ changed := items.any (fun ti => (processInstance cm ti).2.2),
         result :=
           match (items.flatMap fun ti => (processInstance cm ti).2.1).getLast? with
           | some b => ResultField.body (server b)
           | none => ResultField.emptyList },
       items.flatMap fun ti => (processInstance cm ti).2.1) := by
  unfold perform_migrations
  rw [perform_migrations_aux]
  simp

/-- The per-instance mutated flag is exactly "this instance has at least one
stale in-table reference". -/
theorem processInstance_mutated (cm : Bool) (ti : TemplateInstance) :
    (processInstance cm ti).2.2 = (ti.status.objects.getD []).any isStale := by
  cases h : ti.status.objects with
  | none => rw [processInstance_none cm ti h]; simp
  | some objs =>
    cases hn : objs with
    | nil => rw [processInstance_empty cm ti (hn ▸ h)]; simp
    | cons o rest =>
      rw [processInstance_some cm ti objs h (by simp [hn])]
      simp [hn]

/-- `rewriteRef` touches nothing but `apiVersion`. -/
theorem rewriteRef_fields (o : StatusObject) :
    (rewriteRef o).ref.kind = o.ref.kind ∧
    (rewriteRef o).ref.name = o.ref.name ∧
    (rewriteRef o).ref.«namespace» = o.ref.«namespace» ∧
    (rewriteRef o).ref.uid = o.ref.uid := by
  unfold rewriteRef
  cases transformsLookup o.ref.kind with
  | none => exact ⟨rfl, rfl, rfl, rfl⟩
  | some v =>
    by_cases hv : o.ref.apiVersion = v
    · simp [hv]
    · simp [hv, setRefApiVersion]

/-- In check mode `processInstance` performs the same in-memory migration and
reports the same mutated flag as a live run, but issues no patches. -/
theorem processInstance_checkMode (ti : TemplateInstance) :
    processInstance true ti =
      ((processInstance false ti).1, [], (processInstance false ti).2.2) := by
  cases h : ti.status.objects with
  | none => rw [processInstance_none, processInstance_none] <;> exact h
  | some objs =>
    cases hn : objs with
    | nil =>
      rw [processInstance_empty true ti (hn ▸ h), processInstance_empty false ti (hn ▸ h)]
    | cons o rest =>
      rw [processInstance_some true ti objs h (by simp [hn]),
        processInstance_some false ti objs h (by simp [hn])]
      simp

/-! ## Claims -/

/-- C1: for every TemplateInstance and every reference in its
`status.objects`, the transform sets the reference's apiVersion to the
transform table's value exactly when the reference's kind is a key of the
table and its current apiVersion differs from the table's value, and then
marks the instance mutated; a reference of an unmapped kind, or one already
at the table's value, is left unchanged. -/
theorem c1_reference_rewrite (cm : Bool) (ti : TemplateInstance)
    (objs : List StatusObject) (h : ti.status.objects = some objs)
    (i : Nat) (hi : i < objs.length) :
    ∃ objs', ((processInstance cm ti).1).status.objects = some objs' ∧
      (∀ v, transformsLookup (objs[i]).ref.kind = some v →
        (objs[i]).ref.apiVersion ≠ v →
          objs'[i]? = some (setRefApiVersion (objs[i]) v) ∧
          (processInstance cm ti).2.2 = true) ∧
      (transformsLookup (objs[i]).ref.kind = none → objs'[i]? = some (objs[i])) ∧
      (∀ v, transformsLookup (objs[i]).ref.kind = some v →
        (objs[i]).ref.apiVersion = v → objs'[i]? = some (objs[i])) := by
  have hne : objs ≠ [] := by
    intro hnil; rw [hnil] at hi; simp at hi
  rw [processInstance_some cm ti objs h hne]
  refine ⟨objs.map rewriteRef, rfl, ?_, ?_, ?_⟩
  · intro v hv hne'
    constructor
    · rw [List.getElem?_map, List.getElem?_eq_getElem hi]
      have : rewriteRef (objs[i]) = setRefApiVersion (objs[i]) v := by
        unfold rewriteRef
        rw [hv]
        simp [hne']
      simp [this]
    · simp only
      rw [List.any_eq_true]
      refine ⟨objs[i], List.getElem_mem hi, ?_⟩
      unfold isStale
      rw [hv]
      simp [hne']
  · intro hv
    rw [List.getElem?_map, List.getElem?_eq_getElem hi]
    simp only [Option.map_some', Option.some.injEq]
    exact rewriteRef_of_not_stale (by unfold isStale; rw [hv])
  · intro v hv heq
    rw [List.getElem?_map, List.getElem?_eq_getElem hi]
    simp only [Option.map_some', Option.some.injEq]
    exact rewriteRef_of_not_stale (by unfold isStale; rw [hv]; simp [heq])

/-- C1 witness: instantiated at a concrete instance whose second reference is
a stale `Route`. -/
theorem c1_reference_rewrite_witness :
    ∃ objs', ((processInstance false tiOneStale).1).status.objects = some objs' ∧
      objs'[1]? = some (setRefApiVersion routeStaleRef "route.openshift.io/v1.Route") ∧
      (processInstance false tiOneStale).2.2 = true := by
  obtain ⟨objs', h1, h2, -, -⟩ :=
    c1_reference_rewrite false tiOneStale [secretRef, routeStaleRef] (by decide) 1
      (by decide)
  obtain ⟨h3, h4⟩ := h2 "route.openshift.io/v1.Route" (by decide) (by decide)
  exact ⟨objs', h1, h3, h4⟩

/-- C2 counterexample: a live (non-check-mode) instance with two stale
references is marked mutated but two patches are issued for it, not exactly
one, and the first patch body does not yet carry the second rewrite. -/
theorem c2_counterexample :
    (processInstance false tiTwoStale).2.2 = true ∧
    (processInstance false tiTwoStale).2.1.length ≠ 1 ∧
    (processInstance false tiTwoStale).2.1[0]? ≠
      some (processInstance false tiTwoStale).1 := by
  decide

/-- C2 amended: in a non-dry-run, an instance receives one status patch per
rewritten reference — so an instance the transform did not mutate is never
patched — and only the final patch for a mutated instance carries all of that
instance's rewrites (it equals the fully rewritten body). -/
theorem c2_patch_per_rewrite (ti : TemplateInstance) :
    (processInstance false ti).2.1.length =
      (ti.status.objects.getD []).countP isStale ∧
    ((processInstance false ti).2.2 = false → (processInstance false ti).2.1 = []) ∧
    ((processInstance false ti).2.2 = true →
      (processInstance false ti).2.1.getLast? = some (processInstance false ti).1) := by
  cases h : ti.status.objects with
  | none => rw [processInstance_none false ti h]; simp
  | some objs =>
    simp only [Option.getD_some]
    by_cases hnil : objs = []
    · subst hnil
      rw [processInstance_empty false ti h]
      simp
    · rw [processInstance_some false ti objs h hnil]
      refine ⟨?_, ?_, ?_⟩
      · simpa using patchTrace_length ti objs []
      · intro hm
        simp only at hm
        simpa using patchTrace_eq_nil ti objs [] hm
      · intro hm
        simp only at hm
        simpa using patchTrace_getLast ti objs [] hm

/-- C2 amended witness: on the two-stale-reference fixture, two patches are
issued and the last one is the fully migrated body. -/
theorem c2_patch_per_rewrite_witness :
    (processInstance false tiTwoStale).2.1.length =
      (tiTwoStale.status.objects.getD []).countP isStale ∧
    (processInstance false tiTwoStale).2.1.getLast? =
      some (processInstance false tiTwoStale).1 := by
  obtain ⟨h1, -, h3⟩ := c2_patch_per_rewrite tiTwoStale
  exact ⟨h1, h3 (by decide)⟩

/-- C8: an instance whose `status.objects` is absent or empty is reported
unmutated, gets no patch, and is left unchanged; processing it is total, so
it cannot fail the run. -/
theorem c8_no_objects (cm : Bool) (ti : TemplateInstance)
    (h : ti.status.objects = none ∨ ti.status.objects = some []) :
    processInstance cm ti = (ti, [], false) := by
  cases h with
  | inl h => exact processInstance_none cm ti h
  | inr h => exact processInstance_empty cm ti h

/-- C8 witness: a concrete instance with no `status.objects` field. -/
theorem c8_no_objects_witness :
    processInstance false tiNoObjects = (tiNoObjects, [], false) :=
  c8_no_objects false tiNoObjects (Or.inl (by decide))

/-- C3: the returned `result` field holds only the most recent patch
outcome's server-returned body — the answer to the last patch issued — and is
the initial empty list when the run issued no patch. -/
theorem c3_result_last_patch (cm : Bool)
    (server : TemplateInstance → TemplateInstance)
    (items : List TemplateInstance) :
    ((perform_migrations cm server items).2 = [] →
      (perform_migrations cm server items).1.result = ResultField.emptyList) ∧
    (∀ b, (perform_migrations cm server items).2.getLast? = some b →
      (perform_migrations cm server items).1.result = ResultField.body (server b)) := by
  rw [perform_migrations_eq]
  constructor
  · intro h
    simp only at h ⊢
    simp [h]
  · intro b hb
    simp only at hb ⊢
    simp [hb]

/-- C3 witness: a run patching exactly one instance reports that instance's
server-returned body. -/
theorem c3_result_last_patch_witness :
    (perform_migrations false id [tiOneStale]).1.result =
      ResultField.body (id tiOneStaleMigrated) :=
  (c3_result_last_patch false id [tiOneStale]).2 tiOneStaleMigrated (by decide)

/-- C4: with check mode (dry run) enabled no patch body is ever sent and
`result` keeps its initial empty value (no cluster state is touched), the
`changed` flag still reflects exactly whether any listed instance holds a
stale in-table reference, and every instance is still logically migrated in
memory exactly as a live run would have done. -/
theorem c4_dry_run (server : TemplateInstance → TemplateInstance)
    (items : List TemplateInstance) :
    (perform_migrations true server items).2 = [] ∧
    (perform_migrations true server items).1.result = ResultField.emptyList ∧
    ((perform_migrations true server items).1.changed =
      items.any fun ti => (ti.status.objects.getD []).any isStale) ∧
    (∀ ti ∈ items, processInstance true ti =
      ((processInstance false ti).1, [], (processInstance false ti).2.2)) := by
  have htr : (items.flatMap fun ti => (processInstance true ti).2.1) = [] := by
    rw [List.flatMap_eq_nil_iff]
    intro ti _
    rw [processInstance_checkMode]
  rw [perform_migrations_eq]
  refine ⟨htr, ?_, ?_, fun ti _ => processInstance_checkMode ti⟩
  · simp [htr]
  · simp only [processInstance_mutated]

/-- C4 witness: a dry run over one stale instance makes no patch call yet
reports `changed`. -/
theorem c4_dry_run_witness :
    (perform_migrations true id [tiOneStale]).2 = [] ∧
    (perform_migrations true id [tiOneStale]).1.changed = true := by
  obtain ⟨h1, -, h3, -⟩ := c4_dry_run id [tiOneStale]
  refine ⟨h1, ?_⟩
  rw [h3]
  decide

/-- C5: the transform is idempotent — reprocessing an already processed
instance returns the same instance, issues no patch, and reports it
unmutated. -/
theorem c5_idempotent (cm : Bool) (ti : TemplateInstance) :
    processInstance cm ((processInstance cm ti).1) =
      ((processInstance cm ti).1, [], false) := by
  cases h : ti.status.objects with
  | none =>
    rw [processInstance_none cm ti h]
    exact processInstance_none cm ti h
  | some objs =>
    by_cases hnil : objs = []
    · subst hnil
      rw [processInstance_empty cm ti h]
      exact processInstance_empty cm ti h
    · rw [processInstance_some cm ti objs h hnil]
      simp only
      have hobj : (withObjects ti (objs.map rewriteRef)).status.objects =
          some (objs.map rewriteRef) := rfl
      have hmne : objs.map rewriteRef ≠ [] := by
        simpa [List.map_eq_nil_iff] using hnil
      rw [processInstance_some cm _ _ hobj hmne]
      have hany : (objs.map rewriteRef).any isStale = false := by
        rw [List.any_map, List.any_eq_false]
        intro o _
        simp [Function.comp, isStale_rewriteRef]
      have hmapmap : (objs.map rewriteRef).map rewriteRef = objs.map rewriteRef := by
        rw [List.map_map]
        exact List.map_congr_left fun o _ => rewriteRef_idem o
      rw [hmapmap, hany]
      have hwo : withObjects (withObjects ti (objs.map rewriteRef))
          (objs.map rewriteRef) = withObjects ti (objs.map rewriteRef) := rfl
      rw [hwo, patchTrace_eq_nil _ _ _ hany]
      simp

/-- C6: a transform pass preserves the order and count of `status.objects`,
touches no field of the instance other than that list, and within each entry
changes nothing but the `apiVersion` of a stale in-table reference; every
non-stale entry is unchanged. -/
theorem c6_frame (cm : Bool) (ti : TemplateInstance)
    (objs : List StatusObject) (h : ti.status.objects = some objs) :
    ((processInstance cm ti).1).metadata = ti.metadata ∧
    ((processInstance cm ti).1).spec = ti.spec ∧
    ((processInstance cm ti).1).status.rest = ti.status.rest ∧
    ∃ objs', ((processInstance cm ti).1).status.objects = some objs' ∧
      objs'.length = objs.length ∧
      ∀ i (hi : i < objs.length),
        ∃ o', objs'[i]? = some o' ∧
          o'.ref.kind = (objs[i]).ref.kind ∧
          o'.ref.name = (objs[i]).ref.name ∧
          o'.ref.«namespace» = (objs[i]).ref.«namespace» ∧
          o'.ref.uid = (objs[i]).ref.uid ∧
          (isStale (objs[i]) = false → o' = objs[i]) := by
  by_cases hnil : objs = []
  · subst hnil
    rw [processInstance_empty cm ti h]
    exact ⟨rfl, rfl, rfl, [], h, rfl, fun i hi => by simp at hi⟩
  · rw [processInstance_some cm ti objs h hnil]
    refine ⟨rfl, rfl, rfl, objs.map rewriteRef, rfl, by simp, ?_⟩
    intro i hi
    refine ⟨rewriteRef (objs[i]), ?_, ?_⟩
    · rw [List.getElem?_map, List.getElem?_eq_getElem hi]
      rfl
    · obtain ⟨hk, hn, hns, hu⟩ := rewriteRef_fields (objs[i])
      exact ⟨hk, hn, hns, hu, fun hs => rewriteRef_of_not_stale hs⟩

/-- C6 witness: instantiated at the mixed fixture (one unmapped kind, one
stale mapped kind). -/
theorem c6_frame_witness :
    ((processInstance false tiOneStale).1).metadata = tiOneStale.metadata ∧
    ∃ objs', ((processInstance false tiOneStale).1).status.objects = some objs' ∧
      objs'.length = 2 ∧ ∃ o', objs'[0]? = some o' ∧ o' = secretRef := by
  obtain ⟨h1, -, -, objs', h2, h3, h4⟩ :=
    c6_frame false tiOneStale [secretRef, routeStaleRef] (by decide)
  obtain ⟨o', h5, -, -, -, -, h6⟩ := h4 0 (by decide)
  exact ⟨h1, objs', h2, h3, o', h5, h6 (by decide)⟩

/-- C7: the run-level `changed` flag is true exactly when some listed
instance holds at least one stale in-table reference, i.e. when at least one
reference was rewritten during the run. -/
theorem c7_changed_iff (cm : Bool)
    (server : TemplateInstance → TemplateInstance)
    (items : List TemplateInstance) :
    (perform_migrations cm server items).1.changed = true ↔
      ∃ ti ∈ items, ∃ o ∈ ti.status.objects.getD [], isStale o = true := by
  rw [perform_migrations_eq]
  simp only [processInstance_mutated]
  simp [List.any_eq_true]

/-- C7 witness: one stale instance makes the run report `changed`. -/
theorem c7_changed_iff_witness :
    (perform_migrations false id [tiOneStale]).1.changed = true :=
  (c7_changed_iff false id [tiOneStale]).mpr
    ⟨tiOneStale, by decide, routeStaleRef, by decide, by decide⟩

/-- C9 counterexample: in a cluster-wide run (no namespace), a failing list
call is not turned into the structured retrieval failure — the exception
escapes `execute_module` uncaught, for any message/status/reason triple. -/
theorem c9_counterexample :
    execute_module none
        (ListResult.dynamicApiError 500 "Internal Server Error" "boom") false id =
      ModuleTermination.uncaught "boom" ∧
    ∀ msg st r,
      execute_module none
          (ListResult.dynamicApiError 500 "Internal Server Error" "boom") false id ≠
        ModuleTermination.failedRetrieval msg st r := by
  refine ⟨rfl, ?_⟩
  intro msg st r hcontra
  simp [execute_module] at hcontra

/-- C9 amended: a failing list call is fatal in both modes — the run never
reaches a result. A namespace-scoped run reports the structured retrieval
failure, carrying the HTTP status and reason when the failure is a
`DynamicApiError` and placeholder values otherwise; a cluster-wide run lets
the exception propagate uncaught. In the model the list call's outcome is
consumed exactly once, so no retry is possible. -/
theorem c9_list_failure (ns : Option String) (lr : ListResult) (cm : Bool)
    (server : TemplateInstance → TemplateInstance)
    (hfail : ∀ tis, lr ≠ ListResult.ok tis) :
    (∀ res, execute_module ns lr cm server ≠ ModuleTermination.exited res) ∧
    (∀ n st r b, ns = some n → lr = ListResult.dynamicApiError st r b →
      execute_module ns lr cm server =
        ModuleTermination.failedRetrieval
          ("Failed to retrieve TemplateInstances in namespace " ++ n ++ ": " ++ b)
          (some st) (some r)) ∧
    (∀ n m, ns = some n → lr = ListResult.otherException m →
      execute_module ns lr cm server =
        ModuleTermination.failedRetrieval
          ("Failed to retrieve TemplateInstances in namespace " ++ n ++ ": " ++ m)
          none none) ∧
    (∀ st r b, ns = none → lr = ListResult.dynamicApiError st r b →
      execute_module ns lr cm server = ModuleTermination.uncaught b) ∧
    (∀ m, ns = none → lr = ListResult.otherException m →
      execute_module ns lr cm server = ModuleTermination.uncaught m) := by
  refine ⟨?_, ?_, ?_, ?_, ?_⟩
  · intro res hcontra
    cases ns <;> cases lr <;>
      first
        | exact hfail _ rfl
        | simp [execute_module] at hcontra
  · intro n st r b hns hlr
    subst hns; subst hlr
    rfl
  · intro n m hns hlr
    subst hns; subst hlr
    rfl
  · intro st r b hns hlr
    subst hns; subst hlr
    rfl
  · intro m hns hlr
    subst hns; subst hlr
    rfl

/-- C9 amended witness: a namespace-scoped run with a failing list call
reports the structured failure with its HTTP status and reason. -/
theorem c9_list_failure_witness :
    execute_module (some "test")
        (ListResult.dynamicApiError 403 "Forbidden" "denied") false id =
      ModuleTermination.failedRetrieval
        ("Failed to retrieve TemplateInstances in namespace " ++ "test" ++ ": " ++
          "denied")
        (some 403) (some "Forbidden") :=
  (c9_list_failure (some "test")
      (ListResult.dynamicApiError 403 "Forbidden" "denied") false id
      (fun _ h => nomatch h)).2.1 "test" 403 "Forbidden" "denied" rfl rfl

/-- C10: the transform table consists of exactly the four listed entries in
`group/version.Kind` form; any other kind resolves to no entry and a
reference of any other kind is never rewritten by a pass. -/
theorem c10_transform_table :
    transforms =
      [("Build", "build.openshift.io/v1.Build"),
       ("BuildConfig", "build.openshift.io/v1.BuildConfig"),
       ("DeploymentConfig", "apps.openshift.io/v1.DeploymentConfig"),
       ("Route", "route.openshift.io/v1.Route")] ∧
    (∀ k, k ≠ "Build" → k ≠ "BuildConfig" → k ≠ "DeploymentConfig" →
      k ≠ "Route" → transformsLookup k = none) ∧
    (∀ (cm : Bool) (ti : TemplateInstance) (objs : List StatusObject),
      ti.status.objects = some objs →
      ∀ i (hi : i < objs.length),
        (objs[i]).ref.kind ≠ "Build" → (objs[i]).ref.kind ≠ "BuildConfig" →
        (objs[i]).ref.kind ≠ "DeploymentConfig" → (objs[i]).ref.kind ≠ "Route" →
        ∃ objs', ((processInstance cm ti).1).status.objects = some objs' ∧
          objs'[i]? = some (objs[i])) := by
  have hnone : ∀ k, k ≠ "Build" → k ≠ "BuildConfig" → k ≠ "DeploymentConfig" →
      k ≠ "Route" → transformsLookup k = none := by
    intro k h1 h2 h3 h4
    have e1 : (("Build" : String) == k) = false := beq_eq_false_iff_ne.mpr (Ne.symm h1)
    have e2 : (("BuildConfig" : String) == k) = false :=
      beq_eq_false_iff_ne.mpr (Ne.symm h2)
    have e3 : (("DeploymentConfig" : String) == k) = false :=
      beq_eq_false_iff_ne.mpr (Ne.symm h3)
    have e4 : (("Route" : String) == k) = false := beq_eq_false_iff_ne.mpr (Ne.symm h4)
    simp [transformsLookup, transforms, List.find?, e1, e2, e3, e4]
  refine ⟨rfl, hnone, ?_⟩
  intro cm ti objs h i hi h1 h2 h3 h4
  have hne : objs ≠ [] := by
    intro hnil; rw [hnil] at hi; simp at hi
  rw [processInstance_some cm ti objs h hne]
  refine ⟨objs.map rewriteRef, rfl, ?_⟩
  rw [List.getElem?_map, List.getElem?_eq_getElem hi]
  simp only [Option.map_some', Option.some.injEq]
  exact rewriteRef_of_not_stale (by unfold isStale; rw [hnone _ h1 h2 h3 h4])

/-- C10 witness: `Secret` is not in the table and a `Secret` reference
survives a pass untouched. -/
theorem c10_transform_table_witness :
    transformsLookup "Secret" = none ∧
    ∃ objs', ((processInstance false tiOneStale).1).status.objects = some objs' ∧
      objs'[0]? = some secretRef := by
  obtain ⟨-, h2, h3⟩ := c10_transform_table
  exact ⟨h2 "Secret" (by decide) (by decide) (by decide) (by decide),
    h3 false tiOneStale [secretRef, routeStaleRef] (by decide) 0 (by decide)
      (by decide) (by decide) (by decide) (by decide)⟩

end OkdMigrate
